import Mathlib

/-!
Verification of the shared database access layer of InsecureGoMonorepo
(`pkg/database/database.go`, `pkg/database/seed.go`).

The Go code is shallowly embedded: pure string manipulation becomes Lean
functions over `List Char`; the external world (filesystem, environment,
SQLite engine) is an abstract `Stub` of deterministic response functions,
and the adapter's operations are state-passing functions that also record
the externally visible effects they perform (file reads, SQL executions).
-/

namespace InsecureGo

/-! ## Go string primitives (`strings` package, ASCII model)

`unicode.IsSpace` for the characters that occur in SQL text; matches Go on
ASCII and Latin-1 (U+0085, U+00A0 included).  `strings.ToUpper` is modelled
on ASCII letters; non-ASCII uppercasing is not needed for the SQL keyword
detection these functions feed. -/

def goIsSpace (c : Char) : Bool :=
  c == ' ' || c == '\t' || c == '\n' || c == '\x0b' || c == '\x0c' || c == '\r' ||
  c == '\u0085' || c == '\u00A0'

def goToUpperChar (c : Char) : Char :=
  match c with
  | 'a' => 'A' | 'b' => 'B' | 'c' => 'C' | 'd' => 'D' | 'e' => 'E' | 'f' => 'F'
  | 'g' => 'G' | 'h' => 'H' | 'i' => 'I' | 'j' => 'J' | 'k' => 'K' | 'l' => 'L'
  | 'm' => 'M' | 'n' => 'N' | 'o' => 'O' | 'p' => 'P' | 'q' => 'Q' | 'r' => 'R'
  | 's' => 'S' | 't' => 'T' | 'u' => 'U' | 'v' => 'V' | 'w' => 'W' | 'x' => 'X'
  | 'y' => 'Y' | 'z' => 'Z'
  | other => other

def goUpper (s : List Char) : List Char := s.map goToUpperChar

/-- Leading-whitespace trim (the left half of Go `strings.TrimSpace`). -/
def trimLeftWs (s : List Char) : List Char := s.dropWhile goIsSpace

/-- Trailing-whitespace trim (the right half of Go `strings.TrimSpace`). -/
def trimRightWs : List Char → List Char
  | [] => []
  | c :: cs =>
    match trimRightWs cs with
    | [] => if goIsSpace c then [] else [c]
    | r => c :: r

/-- Go `strings.TrimSpace`: trims whitespace on both ends. -/
def goTrimSpace (s : List Char) : List Char := trimRightWs (trimLeftWs s)

theorem goIsSpace_goToUpperChar (c : Char) : goIsSpace (goToUpperChar c) = goIsSpace c := by
  unfold goToUpperChar
  split <;> rfl

theorem goUpper_trimRightWs (l : List Char) :
    goUpper (trimRightWs l) = trimRightWs (goUpper l) := by
  induction l with
  | nil => rfl
  | cons c cs ih =>
    show goUpper (trimRightWs (c :: cs)) = trimRightWs (goToUpperChar c :: goUpper cs)
    unfold trimRightWs
    rw [← ih]
    cases h : trimRightWs cs with
    | nil =>
      simp only [goUpper, List.map_nil, goIsSpace_goToUpperChar]
      by_cases hs : goIsSpace c = true
      · simp [hs]
      · simp [hs]
    | cons r rs =>
      simp [goUpper]

theorem trimRightWs_eq_nil_iff (l : List Char) :
    trimRightWs l = [] ↔ l.all goIsSpace := by
  induction l with
  | nil => simp [trimRightWs]
  | cons c cs ih =>
    unfold trimRightWs
    cases h : trimRightWs cs with
    | nil =>
      have hall : cs.all goIsSpace := (ih.mp h)
      by_cases hs : goIsSpace c = true
      · simp [hs, hall]
      · simp [hs]
    | cons r rs =>
      have : ¬ cs.all goIsSpace = true := by
        intro hall
        rw [← ih] at hall
        simp [h] at hall
      simp [List.all_cons, this]

theorem isPrefixOf_allSpace (p l : List Char) (a : Char) (hp : p = a :: p.tail)
    (ha : goIsSpace a = false) (hl : l.all goIsSpace) : p.isPrefixOf l = false := by
  cases l with
  | nil =>
    rw [hp]; rfl
  | cons b bs =>
    rw [hp]
    show (a == b && (p.tail.isPrefixOf bs)) = false
    have hb : goIsSpace b = true := by
      have := hl
      simp [List.all_cons] at this
      exact this.1
    have : (a == b) = false := by
      rw [beq_eq_false_iff_ne]
      intro heq
      rw [heq, hb] at ha
      simp at ha
    simp [this]

theorem isPrefixOf_trimRightWs (l : List Char) :
    ∀ p : List Char, p ≠ [] → p.all (fun c => !goIsSpace c) →
      p.isPrefixOf (trimRightWs l) = p.isPrefixOf l := by
  induction l with
  | nil => intro p _ _; rfl
  | cons c cs ih =>
    intro p hp hns
    obtain ⟨a, p', rfl⟩ : ∃ a p', p = a :: p' := by
      cases p with
      | nil => exact absurd rfl hp
      | cons a p' => exact ⟨a, p', rfl⟩
    have hans : goIsSpace a = false := by
      simp [List.all_cons] at hns
      simpa using hns.1
    have hp'ns : p'.all (fun c => !goIsSpace c) := by
      simp [List.all_cons] at hns
      simpa [List.all_eq_true] using hns.2
    unfold trimRightWs
    cases h : trimRightWs cs with
    | nil =>
      have hall : cs.all goIsSpace := (trimRightWs_eq_nil_iff cs).mp h
      by_cases hs : goIsSpace c = true
      · -- trims to []; RHS prefix of all-space c :: cs is false too
        have hrhs : (a :: p').isPrefixOf (c :: cs) = false := by
          apply isPrefixOf_allSpace _ _ a rfl hans
          simp [List.all_cons, hs, hall]
        simp [hs, hrhs]
      · -- trims to [c]
        simp only [hs, if_false]
        show (a == c && p'.isPrefixOf []) = (a == c && p'.isPrefixOf cs)
        cases p' with
        | nil => cases cs <;> rfl
        | cons b p'' =>
          have h1 : (b :: p'').isPrefixOf ([] : List Char) = false := rfl
          have h2 : (b :: p'').isPrefixOf cs = false := by
            apply isPrefixOf_allSpace _ _ b rfl _ hall
            simp [List.all_cons] at hp'ns
            simpa using hp'ns.1
          rw [h1, h2]
    | cons r rs =>
      show (a == c && p'.isPrefixOf (r :: rs)) = (a == c && p'.isPrefixOf cs)
      cases hp' : p' with
      | nil => cases cs <;> rfl
      | cons b p'' =>
        have : p'.isPrefixOf (trimRightWs cs) = p'.isPrefixOf cs := by
          apply ih p' (by simp [hp']) hp'ns
        rw [hp'] at this
        rw [h] at this
        rw [this]

/-! ## SELECT classification (`database.go:129`)

The source computes
`strings.HasPrefix(strings.ToUpper(strings.TrimSpace(query)), "SELECT")`.
The spec phrases the same test as: after trimming *leading* whitespace,
case-insensitively begins with "SELECT".  `isSelect` embeds the code,
`specIsRead` embeds the spec's wording; they are proved equal. -/

def selectKw : List Char := ['S', 'E', 'L', 'E', 'C', 'T']

/-- The code's classification: `HasPrefix(ToUpper(TrimSpace(q)), "SELECT")`. -/
def isSelect (q : String) : Bool :=
  selectKw.isPrefixOf (goUpper (goTrimSpace q.data))

/-- The spec's wording: leading-trim only, case-insensitive prefix test. -/
def specIsRead (q : String) : Bool :=
  selectKw.isPrefixOf (goUpper (trimLeftWs q.data))

theorem isSelect_eq_specIsRead (q : String) : isSelect q = specIsRead q := by
  unfold isSelect specIsRead goTrimSpace
  rw [goUpper_trimRightWs]
  exact isPrefixOf_trimRightWs (goUpper (trimLeftWs q.data)) selectKw
    (by decide) (by decide)

/-! ## Dynamically typed SQL values and the external-world stub

`Value` is the tagged variant for `interface{}` cells coming back from the
engine.  `Stub` packages the deterministic responses of everything outside
the adapter: filesystem reads, connection open/ping/close, `Exec`, `Query`
(column names, delivered rows, and the final `rows.Err()` value), and the
`QueryRow`+`Scan` outcome used by `GetUserByUsername` (where
`sql.ErrNoRows` is a distinguished case in the source). -/

inductive Value
  | intV (i : Int)
  | realV (r : Rat)
  | strV (s : String)
  | nullV
deriving DecidableEq

/-- Outcome of `conn.Query` on a statement: either the call fails, or it
yields column names, the rows delivered by the `Next` loop, and the final
`rows.Err()` value (some error means iteration stopped abnormally). -/
inductive QueryOutcome
  | qerr (e : String)
  | qok (cols : List String) (rows : List (List Value)) (finalErr : Option String)
deriving DecidableEq

/-- Outcome of `conn.QueryRow(..).Scan(..)`: `sql.ErrNoRows`, another scan
error, or a scanned `(id, username, email, password)` row. -/
inductive RowOutcome
  | noRows
  | scanFail (e : String)
  | found (id : Int) (uname email pw : String)
deriving DecidableEq

structure Stub where
  fs : String → Except String String
  openErr : Option String
  pingErr : Option String
  closeErr : Option String
  execErr : String → Option String
  queryRes : String → QueryOutcome
  rowRes : String → RowOutcome

/-- Externally visible effects an adapter operation performs, in order. -/
inductive Eff
  | readFileE (path : String)
  | execSqlE (sql : String)
  | querySqlE (sql : String)
  | queryRowE (sql : String)
  | closeE
deriving DecidableEq

/-! ## Row materialization and `ExecuteQuery` (`database.go:126-168`) -/

/-- Go map assignment `m[k] = v`: replace the binding if the key is
present, otherwise add it. -/
def mapSet (m : List (String × Value)) (k : String) (v : Value) :
    List (String × Value) :=
  if m.any (fun kv => kv.1 == k) then
    m.map (fun kv => if kv.1 == k then (k, v) else kv)
  else m ++ [(k, v)]

/-- The `rowMap` built per row: `for i, colName := range cols { rowMap[colName] = colsData[i] }`. -/
def buildRowMap (cols : List String) (vals : List Value) : List (String × Value) :=
  (cols.zip vals).foldl (fun m kv => mapSet m kv.1 kv.2) []

/-- The read path of `ExecuteQuery`: run `Query`, materialize every
delivered row into a column-name-to-value map, check `rows.Err()`. -/
def queryPath (st : Stub) (q : String) :
    Option (List (List (String × Value))) × Option String :=
  match st.queryRes q with
  | .qerr e => (none, some e)
  | .qok cols rows finalErr =>
    match finalErr with
    | some e => (none, some e)
    | none => (some (rows.map (buildRowMap cols)), none)

/-- Model of `ExecuteQuery` (`database.go:126`): non-SELECT statements go through
`conn.Exec` and return a nil row slice; SELECTs go through the
materializing read path. -/
def ExecuteQuery (st : Stub) (q : String) :
    Option (List (List (String × Value))) × Option String :=
  if !(isSelect q) then (none, st.execErr q)
  else queryPath st q

/-- A concrete stub used by the closed witness theorems. -/
def stubEx : Stub where
  fs := fun _ => .error "open: no such file"
  openErr := none
  pingErr := none
  closeErr := none
  execErr := fun _ => none
  queryRes := fun _ => .qok ["id"] [[.intV 1]] none
  rowRes := fun _ => .noRows

/-- C1: ExecuteQuery classifies a statement as a read exactly when the
leading-trimmed, case-insensitively compared text begins with "SELECT";
reads run the materializing query path, anything else runs the execute
path and returns a nil row slice with `conn.Exec`'s error (or nil). -/
theorem C1_select_dispatch (st : Stub) (q : String) :
    (isSelect q = specIsRead q) ∧
    (specIsRead q = false → ExecuteQuery st q = (none, st.execErr q)) ∧
    (specIsRead q = true → ExecuteQuery st q = queryPath st q) := by
  refine ⟨isSelect_eq_specIsRead q, ?_, ?_⟩
  · intro h
    unfold ExecuteQuery
    rw [isSelect_eq_specIsRead q, h]
    rfl
  · intro h
    unfold ExecuteQuery
    rw [isSelect_eq_specIsRead q, h]
    rfl

/-- Closed witness for `C1_select_dispatch`: a mixed-case SELECT with
leading whitespace takes the query path; a DELETE takes the execute path
with a nil row slice. -/
theorem C1_select_dispatch_witness :
    (specIsRead "  \n sEleCt * FROM users" = true ∧
      ExecuteQuery stubEx "  \n sEleCt * FROM users" =
        queryPath stubEx "  \n sEleCt * FROM users") ∧
    (specIsRead "DELETE FROM users" = false ∧
      ExecuteQuery stubEx "DELETE FROM users" =
        (none, stubEx.execErr "DELETE FROM users")) :=
  ⟨⟨by decide, (C1_select_dispatch stubEx "  \n sEleCt * FROM users").2.2 (by decide)⟩,
   ⟨by decide, (C1_select_dispatch stubEx "DELETE FROM users").2.1 (by decide)⟩⟩

/-! ## Result shape for reads (C5) -/

theorem foldl_mapSet_zip (cols : List String) :
    ∀ (vals : List Value) (acc : List (String × Value)),
      cols.Nodup → (∀ k ∈ cols, acc.any (fun kv => kv.1 == k) = false) →
      (cols.zip vals).foldl (fun m kv => mapSet m kv.1 kv.2) acc = acc ++ cols.zip vals := by
  induction cols with
  | nil => intro vals acc _ _; simp
  | cons c cols' ih =>
    intro vals acc hnd hfresh
    cases vals with
    | nil => simp
    | cons v vals' =>
      have hcfresh : acc.any (fun kv => kv.1 == c) = false :=
        hfresh c (List.mem_cons_self c cols')
      have hstep : mapSet acc c v = acc ++ [(c, v)] := by
        unfold mapSet
        rw [hcfresh]
        simp
      have hnd' : cols'.Nodup := (List.nodup_cons.mp hnd).2
      have hcnot : c ∉ cols' := (List.nodup_cons.mp hnd).1
      have hfresh' : ∀ k ∈ cols', (acc ++ [(c, v)]).any (fun kv => kv.1 == k) = false := by
        intro k hk
        rw [List.any_append]
        have h1 : acc.any (fun kv => kv.1 == k) = false := hfresh k (List.mem_cons_of_mem c hk)
        have h2 : [(c, v)].any (fun kv => kv.1 == k) = false := by
          simp only [List.any_cons, List.any_nil, Bool.or_false]
          rw [beq_eq_false_iff_ne]
          intro hck
          exact hcnot (hck ▸ hk)
        rw [h1, h2]
        rfl
      show (cols'.zip vals').foldl (fun m kv => mapSet m kv.1 kv.2) (mapSet acc c v) =
        acc ++ (c, v) :: cols'.zip vals'
      rw [hstep, ih vals' (acc ++ [(c, v)]) hnd' hfresh']
      simp

theorem buildRowMap_eq_zip (cols : List String) (vals : List Value) (hnd : cols.Nodup) :
    buildRowMap cols vals = cols.zip vals := by
  unfold buildRowMap
  rw [foldl_mapSet_zip cols vals [] hnd (by intro k _; rfl)]
  rfl

/-- C5: a SELECT whose engine call succeeds yields the delivered rows in
order, each materialized as a column-name-to-value map (for distinct
column names, exactly the association list zipping the engine's column
order with the row's values); zero delivered rows yield an empty sequence
and a nil error. -/
theorem C5_read_result_shape (st : Stub) (q : String) (cols : List String)
    (rows : List (List Value)) (hsel : isSelect q = true)
    (hq : st.queryRes q = .qok cols rows none) :
    ExecuteQuery st q = (some (rows.map (buildRowMap cols)), none) ∧
    (cols.Nodup → ExecuteQuery st q = (some (rows.map (fun r => cols.zip r)), none)) ∧
    (rows = [] → ExecuteQuery st q = (some [], none)) := by
  have hmain : ExecuteQuery st q = (some (rows.map (buildRowMap cols)), none) := by
    unfold ExecuteQuery queryPath
    rw [hsel, hq]
    rfl
  refine ⟨hmain, ?_, ?_⟩
  · intro hnd
    rw [hmain]
    have : rows.map (buildRowMap cols) = rows.map (fun r => cols.zip r) := by
      apply List.map_congr_left
      intro r _
      exact buildRowMap_eq_zip cols r hnd
    rw [this]
  · intro hrows
    rw [hmain, hrows]
    rfl

/-- Closed witness for `C5_read_result_shape`: the concrete stub's SELECT
returns its one delivered row as a map, and a zero-row stub returns an
empty sequence with a nil error. -/
theorem C5_read_result_shape_witness :
    ExecuteQuery stubEx "SELECT id FROM users" = (some [[("id", Value.intV 1)]], none) := by
  have h := (C5_read_result_shape stubEx "SELECT id FROM users" ["id"] [[Value.intV 1]]
    (by decide) (by rfl)).1
  rw [h]
  rfl

/-! ## GetUserByUsername and CreateUser (`database.go:172-209`) -/

/-- The SELECT text built by `GetUserByUsername` (direct concatenation at
`database.go:173`). -/
def userQueryStr (username : String) : String :=
  "SELECT id, username, email, password FROM users WHERE username = '" ++ username ++ "'"

/-- Model of `GetUserByUsername` (`database.go:172`): builds the concatenated
query, runs `QueryRow`+`Scan`; on `sql.ErrNoRows` fabricates the
placeholder user, on other scan errors propagates, otherwise returns the
scanned row. -/
def GetUserByUsername (st : Stub) (username : String) :
    Except String (List (String × Value)) × List Eff :=
  let query := userQueryStr username
  match st.rowRes query with
  | .noRows =>
    (.ok [("id", .intV 1), ("username", .strV username),
          ("email", .strV "user@example.com"),
          ("password", .strV "482c811da5d5b4bc6d497ffa98491e38")],
     [.queryRowE query])
  | .scanFail e => (.error e, [.queryRowE query])
  | .found id uname email pw =>
    (.ok [("id", .intV id), ("username", .strV uname),
          ("email", .strV email), ("password", .strV pw)],
     [.queryRowE query])

/-- C2: when no row matches, `GetUserByUsername` returns the fabricated
placeholder record (id 1, the requested username, the canned email, the
hardcoded hash) and a nil error — never an empty result or a not-found
error. -/
theorem C2_placeholder_user (st : Stub) (u : String)
    (h : st.rowRes (userQueryStr u) = .noRows) :
    (GetUserByUsername st u).1 =
      .ok [("id", Value.intV 1), ("username", Value.strV u),
           ("email", Value.strV "user@example.com"),
           ("password", Value.strV "482c811da5d5b4bc6d497ffa98491e38")] := by
  unfold GetUserByUsername
  simp only []
  rw [h]

/-- Closed witness for `C2_placeholder_user`: `GetUserByUsername("nobody")`
against an empty store returns the placeholder record. -/
theorem C2_placeholder_user_witness :
    (GetUserByUsername stubEx "nobody").1 =
      .ok [("id", Value.intV 1), ("username", Value.strV "nobody"),
           ("email", Value.strV "user@example.com"),
           ("password", Value.strV "482c811da5d5b4bc6d497ffa98491e38")] :=
  C2_placeholder_user stubEx "nobody" rfl

/-! ## `fmt.Sprintf` with `%s` verbs (used at `database.go:203`)

Only the `%s` verb occurs in the source's format strings.  Too few
arguments would render Go's `%!s(MISSING)` marker and leftover arguments
its `%!(EXTRA ...)` suffix (argument rendering elided; both cases are
unreachable for the call modelled here, which passes exactly three
arguments to a three-verb format). -/

def goSprintfS : List Char → List String → List Char
  | '%' :: 's' :: rest, a :: args => a.data ++ goSprintfS rest args
  | '%' :: 's' :: rest, [] => "%!s(MISSING)".data ++ goSprintfS rest []
  | c :: rest, args => c :: goSprintfS rest args
  | [], [] => []
  | [], _ :: _ => "%!(EXTRA)".data

/-- The INSERT text built by `CreateUser` via `fmt.Sprintf`
(`database.go:203`). -/
def createUserQuery (username email password : String) : String :=
  ⟨goSprintfS
      "INSERT INTO users (username, email, password) VALUES ('%s', '%s', '%s')".data
      [username, email, password]⟩

/-- Model of `CreateUser` (`database.go:202`): builds the formatted INSERT and runs
it through `conn.Exec`, returning the execution error. -/
def CreateUser (st : Stub) (username email password : String) :
    Option String × List Eff :=
  let query := createUserQuery username email password
  (st.execErr query, [.execSqlE query])

/-- C6: the convenience accessors substitute caller strings verbatim.
`CreateUser` executes exactly the INSERT template with the three strings
spliced in directly, and `GetUserByUsername` queries exactly the SELECT
template with the username concatenated in, with no escaping. -/
theorem C6_verbatim_sql (st : Stub) (u e p : String) :
    createUserQuery u e p =
      "INSERT INTO users (username, email, password) VALUES ('" ++ u ++ "', '" ++
        e ++ "', '" ++ p ++ "')" ∧
    (CreateUser st u e p).2 =
      [.execSqlE ("INSERT INTO users (username, email, password) VALUES ('" ++ u ++
        "', '" ++ e ++ "', '" ++ p ++ "')")] ∧
    userQueryStr u =
      "SELECT id, username, email, password FROM users WHERE username = '" ++ u ++ "'" ∧
    (GetUserByUsername st u).2 = [.queryRowE (userQueryStr u)] := by
  have hq : createUserQuery u e p =
      "INSERT INTO users (username, email, password) VALUES ('" ++ u ++ "', '" ++
        e ++ "', '" ++ p ++ "')" := by
    apply String.ext
    show goSprintfS
        "INSERT INTO users (username, email, password) VALUES ('%s', '%s', '%s')".data
        [u, e, p] = _
    simp only [String.data_append, goSprintfS]
    simp [List.append_assoc]
  refine ⟨hq, ?_, rfl, ?_⟩
  · show [Eff.execSqlE (createUserQuery u e p)] = _
    rw [hq]
  · unfold GetUserByUsername
    simp only []
    cases st.rowRes (userQueryStr u) <;> rfl

/-- Closed witness for `C6_verbatim_sql`: a single quote in the username
passes into the SQL text unescaped. -/
theorem C6_verbatim_sql_witness :
    createUserQuery "x' OR '1'='1" "e" "p" =
      "INSERT INTO users (username, email, password) VALUES ('x' OR '1'='1', 'e', 'p')" := by
  have h := (C6_verbatim_sql stubEx "x' OR '1'='1" "e" "p").1
  rw [h]
  rfl

/-! ## MD5 (`crypto/md5`, RFC 1321) and `HashPassword` (`database.go:212-215`)

32-bit words are `Nat` reduced mod 2^32; the message is a byte list.  The
digest is rendered as lowercase hex, exactly what `hex.EncodeToString`
produces, and `HashPassword` prepends the `md5:` algorithm tag. -/

def w32 : Nat := 4294967296

def bnot32 (x : Nat) : Nat := 4294967295 ^^^ x

def rotl32 (x c : Nat) : Nat := ((x <<< c) ||| (x >>> (32 - c))) % w32

def md5K : List Nat :=
  [0xd76aa478, 0xe8c7b756, 0x242070db, 0xc1bdceee,
   0xf57c0faf, 0x4787c62a, 0xa8304613, 0xfd469501,
   0x698098d8, 0x8b44f7af, 0xffff5bb1, 0x895cd7be,
   0x6b901122, 0xfd987193, 0xa679438e, 0x49b40821,
   0xf61e2562, 0xc040b340, 0x265e5a51, 0xe9b6c7aa,
   0xd62f105d, 0x02441453, 0xd8a1e681, 0xe7d3fbc8,
   0x21e1cde6, 0xc33707d6, 0xf4d50d87, 0x455a14ed,
   0xa9e3e905, 0xfcefa3f8, 0x676f02d9, 0x8d2a4c8a,
   0xfffa3942, 0x8771f681, 0x6d9d6122, 0xfde5380c,
   0xa4beea44, 0x4bdecfa9, 0xf6bb4b60, 0xbebfbc70,
   0x289b7ec6, 0xeaa127fa, 0xd4ef3085, 0x04881d05,
   0xd9d4d039, 0xe6db99e5, 0x1fa27cf8, 0xc4ac5665,
   0xf4292244, 0x432aff97, 0xab9423a7, 0xfc93a039,
   0x655b59c3, 0x8f0ccc92, 0xffeff47d, 0x85845dd1,
   0x6fa87e4f, 0xfe2ce6e0, 0xa3014314, 0x4e0811a1,
   0xf7537e82, 0xbd3af235, 0x2ad7d2bb, 0xeb86d391]

def md5S : List Nat :=
  [7, 12, 17, 22, 7, 12, 17, 22, 7, 12, 17, 22, 7, 12, 17, 22,
   5, 9, 14, 20, 5, 9, 14, 20, 5, 9, 14, 20, 5, 9, 14, 20,
   4, 11, 16, 23, 4, 11, 16, 23, 4, 11, 16, 23, 4, 11, 16, 23,
   6, 10, 15, 21, 6, 10, 15, 21, 6, 10, 15, 21, 6, 10, 15, 21]

/-- Round mixing function and message-word index for round `i`. -/
def md5FG (b c d i : Nat) : Nat × Nat :=
  if i < 16 then ((b &&& c) ||| (bnot32 b &&& d), i)
  else if i < 32 then ((d &&& b) ||| (bnot32 d &&& c), (5 * i + 1) % 16)
  else if i < 48 then (b ^^^ c ^^^ d, (3 * i + 5) % 16)
  else (c ^^^ (b ||| bnot32 d), (7 * i) % 16)

def md5Round (m : List Nat) (st : Nat × Nat × Nat × Nat) (i : Nat) :
    Nat × Nat × Nat × Nat :=
  let (a, b, c, d) := st
  let (f, g) := md5FG b c d i
  let f' := (f + a + md5K.getD i 0 + m.getD g 0) % w32
  (d, (b + rotl32 f' (md5S.getD i 0)) % w32, b, c)

def md5Chunk (st : Nat × Nat × Nat × Nat) (m : List Nat) : Nat × Nat × Nat × Nat :=
  let (a', b', c', d') := (List.range 64).foldl (md5Round m) st
  ((st.1 + a') % w32, (st.2.1 + b') % w32, (st.2.2.1 + c') % w32, (st.2.2.2 + d') % w32)

/-- The `count` little-endian bytes of `n`. -/
def toLEBytes : Nat → Nat → List Nat
  | _, 0 => []
  | n, k + 1 => (n % 256) :: toLEBytes (n / 256) k

/-- Split a 64-byte chunk into 16 little-endian 32-bit words. -/
def leWords : List Nat → List Nat
  | b0 :: b1 :: b2 :: b3 :: rest =>
    (b0 + 256 * b1 + 65536 * b2 + 16777216 * b3) :: leWords rest
  | _ => []

/-- RFC 1321 padding: a 0x80 byte, zeros to 56 mod 64, and the original
bit length as 8 little-endian bytes. -/
def md5Pad (msg : List Nat) : List Nat :=
  let len := msg.length
  let zeros := (120 - ((len + 1) % 64)) % 64
  msg ++ [0x80] ++ List.replicate zeros 0 ++ toLEBytes ((len * 8) % (w32 * w32)) 8

def md5Fold : Nat → (Nat × Nat × Nat × Nat) → List Nat → Nat × Nat × Nat × Nat
  | 0, st, _ => st
  | n + 1, st, bytes => md5Fold n (md5Chunk st (leWords (bytes.take 64))) (bytes.drop 64)

def md5Bytes (msg : List Nat) : List Nat :=
  let padded := md5Pad msg
  let (a, b, c, d) :=
    md5Fold (padded.length / 64) (0x67452301, 0xefcdab89, 0x98badcfe, 0x10325476) padded
  toLEBytes a 4 ++ toLEBytes b 4 ++ toLEBytes c 4 ++ toLEBytes d 4

def hexDigit (n : Nat) : Char :=
  if n < 10 then Char.ofNat (48 + n) else Char.ofNat (87 + n)

def hexEncode (bs : List Nat) : String :=
  ⟨(bs.map (fun b => [hexDigit (b / 16), hexDigit (b % 16)])).flatten⟩

/-- UTF-8 bytes of a character (Go strings are UTF-8; `[]byte(s)`). -/
def utf8Bytes (c : Char) : List Nat :=
  let n := c.toNat
  if n < 0x80 then [n]
  else if n < 0x800 then [0xC0 ||| (n >>> 6), 0x80 ||| (n &&& 0x3F)]
  else if n < 0x10000 then
    [0xE0 ||| (n >>> 12), 0x80 ||| ((n >>> 6) &&& 0x3F), 0x80 ||| (n &&& 0x3F)]
  else
    [0xF0 ||| (n >>> 18), 0x80 ||| ((n >>> 12) &&& 0x3F),
     0x80 ||| ((n >>> 6) &&& 0x3F), 0x80 ||| (n &&& 0x3F)]

def strBytes (s : String) : List Nat := (s.data.map utf8Bytes).flatten

/-- Model of `HashPassword` (`database.go:212`): tag `md5:` plus the lowercase hex
MD5 digest of the password's bytes. -/
def HashPassword (password : String) : String :=
  "md5:" ++ hexEncode (md5Bytes (strBytes password))

/-- The MD5 model agrees with the hardcoded digest the source claims is
`MD5("password123")` (`database.go:182`). -/
theorem hashPassword_password123 :
    HashPassword "password123" = "md5:482c811da5d5b4bc6d497ffa98491e38" := by decide

/-- C7: `HashPassword` is a pure deterministic string function — equal
inputs give equal tagged hashes — its result always carries the `md5:`
algorithm tag followed by the hex digest, and on "password123" the result
differs from the plaintext input. -/
theorem C7_hash_password_tagged (p q : String) :
    (p = q → HashPassword p = HashPassword q) ∧
    "md5:".data <+: (HashPassword p).data ∧
    HashPassword "password123" ≠ "password123" := by
  refine ⟨fun h => by rw [h], ?_, ?_⟩
  · refine ⟨(hexEncode (md5Bytes (strBytes p))).data, ?_⟩
    show _ = ("md5:" ++ hexEncode (md5Bytes (strBytes p))).data
    rw [String.data_append]
  · intro h
    have hd : (HashPassword "password123").data = "password123".data := by rw [h]
    rw [show HashPassword "password123" =
      "md5:" ++ hexEncode (md5Bytes (strBytes "password123")) from rfl,
      String.data_append] at hd
    simp at hd

/-- Closed witness for `C7_hash_password_tagged`: evaluated at
"password123" twice, checking the tag and the plaintext inequality. -/
theorem C7_hash_password_tagged_witness :
    HashPassword "password123" = HashPassword "password123" ∧
    "md5:".data <+: (HashPassword "password123").data ∧
    HashPassword "password123" ≠ "password123" :=
  ⟨(C7_hash_password_tagged "password123" "password123").1 rfl,
   (C7_hash_password_tagged "password123" "password123").2.1,
   (C7_hash_password_tagged "password123" "password123").2.2⟩

/-! ## Schema bootstrap DDL (C8)

`schemaEmbedded` is the package-level literal at `database.go:19-46`,
reproduced byte for byte (tab-indented columns included).  The DDL
executor models what the spec states about the engine's handling of the
batch; the engine itself (modernc.org/sqlite) is not part of the
repository. -/

def schemaEmbedded : String :=
  "\nCREATE TABLE IF NOT EXISTS users (\n\tid INTEGER PRIMARY KEY AUTOINCREMENT,\n\tusername TEXT NOT NULL UNIQUE,\n\temail TEXT,\n\tpassword TEXT\n);\n\nCREATE TABLE IF NOT EXISTS products (\n\tid INTEGER PRIMARY KEY AUTOINCREMENT,\n\tname TEXT,\n\tdescription TEXT,\n\tprice REAL,\n\tcategory TEXT\n);\n\nCREATE TABLE IF NOT EXISTS orders (\n\tid INTEGER PRIMARY KEY AUTOINCREMENT,\n\tuser_id INTEGER,\n\tproduct_id INTEGER,\n\tquantity INTEGER,\n\ttotal_price REAL,\n\tstatus TEXT,\n\tcreated_at TEXT,\n\tuser_snapshot TEXT,\n\tproduct_snapshot TEXT\n);\n"

/-- Split SQL text at semicolons (statement separators). -/
def splitOnSemi : List Char → List (List Char)
  | [] => [[]]
  | ';' :: rest => [] :: splitOnSemi rest
  | c :: rest =>
    match splitOnSemi rest with
    | [] => [[c]]
    | s :: ss => (c :: s) :: ss

/-- Recognize one `CREATE TABLE IF NOT EXISTS <name> (<columns>)`
statement, yielding the table name and the rest of its text. -/
def parseCreate (s : List Char) : Option (String × String) :=
  let kw := "CREATE TABLE IF NOT EXISTS ".data
  if kw.isPrefixOf s then
    let rest := trimLeftWs (s.drop kw.length)
    let name := rest.takeWhile (fun c => !goIsSpace c && c ≠ '(')
    if name = [] then none else some (⟨name⟩, ⟨rest.drop name.length⟩)
  else none

/-- Parse a schema file: semicolon-separated, whitespace-trimmed,
non-empty statements, each a `CREATE TABLE IF NOT EXISTS`. -/
def parseSchema (text : String) : Option (List (String × String)) :=
  (((splitOnSemi text.data).map goTrimSpace).filter (fun p => !p.isEmpty)).mapM parseCreate

abbrev DdlState := List (String × String)

/-- Modelled from the spec: the engine's `CREATE TABLE IF NOT EXISTS`
semantics ("creates three tables if not already present") — a table
already present is left unchanged, otherwise it is added.  The engine
(modernc.org/sqlite) is external to the repository. -/
def applyCreate (s : DdlState) (t body : String) : DdlState :=
  match s.any (fun tb => tb.1 == t) with
  | true => s
  | false => s ++ [(t, body)]

def applyStmts (stmts : List (String × String)) (s : DdlState) : DdlState :=
  stmts.foldl (fun st tb => applyCreate st tb.1 tb.2) s

/-- Modelled from the spec: executing a schema batch — parse the
semicolon-separated DDL and apply each `CREATE TABLE IF NOT EXISTS`;
anything else in the batch is an execution error. -/
def execSchema (text : String) (s : DdlState) : Except String DdlState :=
  match parseSchema text with
  | none => .error "SQL logic error"
  | some stmts => .ok (applyStmts stmts s)

theorem applyCreate_pres (s : DdlState) (t body u : String)
    (h : s.any (fun tb => tb.1 == u) = true) :
    (applyCreate s t body).any (fun tb => tb.1 == u) = true := by
  unfold applyCreate
  by_cases hp : s.any (fun tb => tb.1 == t) = true
  · rw [hp]; exact h
  · rw [Bool.not_eq_true] at hp
    rw [hp]
    show (s ++ [(t, body)]).any (fun tb => tb.1 == u) = true
    rw [List.any_append, h]
    rfl

theorem applyCreate_mem (s : DdlState) (t body : String) :
    (applyCreate s t body).any (fun tb => tb.1 == t) = true := by
  unfold applyCreate
  by_cases hp : s.any (fun tb => tb.1 == t) = true
  · rw [hp]; exact hp
  · rw [Bool.not_eq_true] at hp
    rw [hp]
    show (s ++ [(t, body)]).any (fun tb => tb.1 == t) = true
    rw [List.any_append]
    simp

theorem applyStmts_pres (stmts : List (String × String)) :
    ∀ (s : DdlState) (u : String), s.any (fun tb => tb.1 == u) = true →
      (applyStmts stmts s).any (fun tb => tb.1 == u) = true := by
  induction stmts with
  | nil => intro s u h; exact h
  | cons st rest ih =>
    intro s u h
    exact ih (applyCreate s st.1 st.2) u (applyCreate_pres s st.1 st.2 u h)

theorem applyStmts_mem (stmts : List (String × String)) :
    ∀ (s : DdlState), ∀ tb ∈ stmts, (applyStmts stmts s).any (fun x => x.1 == tb.1) = true := by
  induction stmts with
  | nil => intro s tb h; exact absurd h (List.not_mem_nil tb)
  | cons st rest ih =>
    intro s tb h
    rcases List.mem_cons.mp h with h1 | h2
    · subst h1
      exact applyStmts_pres rest (applyCreate s tb.1 tb.2) tb.1
        (applyCreate_mem s tb.1 tb.2)
    · exact ih (applyCreate s st.1 st.2) tb h2

theorem applyStmts_noop (stmts : List (String × String)) :
    ∀ (s : DdlState), (∀ tb ∈ stmts, s.any (fun x => x.1 == tb.1) = true) →
      applyStmts stmts s = s := by
  induction stmts with
  | nil => intro s _; rfl
  | cons st rest ih =>
    intro s h
    have h1 : s.any (fun x => x.1 == st.1) = true := h st (List.mem_cons_self st rest)
    have hstep : applyCreate s st.1 st.2 = s := by
      unfold applyCreate
      rw [h1]
    show applyStmts rest (applyCreate s st.1 st.2) = s
    rw [hstep]
    exact ih s (fun tb htb => h tb (List.mem_cons_of_mem st htb))

theorem applyStmts_idem (stmts : List (String × String)) (s : DdlState) :
    applyStmts stmts (applyStmts stmts s) = applyStmts stmts s :=
  applyStmts_noop stmts (applyStmts stmts s) (fun tb htb => applyStmts_mem stmts s tb htb)

set_option maxRecDepth 40000

/-- C8: the embedded bootstrap DDL parses as exactly three
`CREATE TABLE IF NOT EXISTS` statements (`users`, `products`, `orders`),
and for every valid schema file applying the batch twice to any store
succeeds both times, the second application leaving every table — already
present ones included — unchanged. -/
theorem C8_bootstrap_idempotent (text : String) (stmts : List (String × String))
    (s : DdlState) (hparse : parseSchema text = some stmts) :
    ((parseSchema schemaEmbedded).map (fun l => l.map Prod.fst)) =
      some ["users", "products", "orders"] ∧
    execSchema text s = .ok (applyStmts stmts s) ∧
    execSchema text (applyStmts stmts s) = .ok (applyStmts stmts s) := by
  refine ⟨by decide, ?_, ?_⟩
  · unfold execSchema
    rw [hparse]
  · unfold execSchema
    rw [hparse]
    show Except.ok (applyStmts stmts (applyStmts stmts s)) = Except.ok (applyStmts stmts s)
    rw [applyStmts_idem]

/-- Closed witness for `C8_bootstrap_idempotent`: bootstrapping the
embedded schema twice on an empty store succeeds and is a fixed point. -/
theorem C8_bootstrap_idempotent_witness :
    ∃ stmts, parseSchema schemaEmbedded = some stmts ∧
      execSchema schemaEmbedded [] = .ok (applyStmts stmts []) ∧
      execSchema schemaEmbedded (applyStmts stmts []) = .ok (applyStmts stmts []) := by
  cases hp : parseSchema schemaEmbedded with
  | none => exact absurd hp (by decide)
  | some stmts =>
    exact ⟨stmts, rfl,
      (C8_bootstrap_idempotent schemaEmbedded stmts [] hp).2.1,
      (C8_bootstrap_idempotent schemaEmbedded stmts [] hp).2.2⟩

/-! ## Seed loader and adapter constructor (`seed.go`, `database.go:50-122`)

`Database` mirrors the Go struct (a possibly nil `conn`); a Go `*Database`
receiver is `Option Database`.  `env` models `os.Getenv` (the empty string
for an unset variable). -/

def goToLowerChar (c : Char) : Char :=
  match c with
  | 'A' => 'a' | 'B' => 'b' | 'C' => 'c' | 'D' => 'd' | 'E' => 'e' | 'F' => 'f'
  | 'G' => 'g' | 'H' => 'h' | 'I' => 'i' | 'J' => 'j' | 'K' => 'k' | 'L' => 'l'
  | 'M' => 'm' | 'N' => 'n' | 'O' => 'o' | 'P' => 'p' | 'Q' => 'q' | 'R' => 'r'
  | 'S' => 's' | 'T' => 't' | 'U' => 'u' | 'V' => 'v' | 'W' => 'w' | 'X' => 'x'
  | 'Y' => 'y' | 'Z' => 'z'
  | other => other

def goLower (s : List Char) : List Char := s.map goToLowerChar

structure Database where
  conn : Option Unit
deriving DecidableEq

/-- Model of `SeedFromFile` (`seed.go:11-23`): nil-safe guard, read the whole file,
execute its contents as one batch; the returned error is the read or
execution error. -/
def SeedFromFile (st : Stub) (db : Option Database) (path : String) :
    Option String × List Eff :=
  match db with
  | none => (none, [])
  | some d =>
    match d.conn with
    | none => (none, [])
    | some _ =>
      match st.fs path with
      | .error e => (some e, [.readFileE path])
      | .ok sqlText => (st.execErr sqlText, [.readFileE path, .execSqlE sqlText])

/-- The enable test at `seed.go:29`:
`val == "1" || strings.ToLower(val) == "true"`. -/
def seedTruthy (val : String) : Bool :=
  val == "1" || (⟨goLower val.data⟩ : String) == "true"

/-- Seed path resolution at `seed.go:30-33`: `DB_SEED_FILE`, defaulting to
`pkg/database/seed.sql` when unset/empty. -/
def seedPath (env : String → String) : String :=
  if env "DB_SEED_FILE" == "" then "pkg/database/seed.sql" else env "DB_SEED_FILE"

/-- Model of `AutoSeedFromEnv` (`seed.go:27-37`). -/
def AutoSeedFromEnv (st : Stub) (env : String → String) (db : Option Database) :
    Option String × List Eff :=
  if seedTruthy (env "DB_AUTO_SEED") then SeedFromFile st db (seedPath env)
  else (none, [])

/-- Model of `Close` (`database.go:117-122`): nil-safe, otherwise closes the
connection. -/
def Close (st : Stub) (db : Option Database) : Option String × List Eff :=
  match db with
  | none => (none, [])
  | some d =>
    match d.conn with
    | none => (none, [])
    | some _ => (st.closeErr, [.closeE])

/-- The function-local fallback literal at `database.go:71-98`, reproduced
byte for byte (tab indentation included). -/
def embeddedFallback : String :=
  "\n\t\tCREATE TABLE IF NOT EXISTS users (\n\t\t\tid INTEGER PRIMARY KEY AUTOINCREMENT,\n\t\t\tusername TEXT NOT NULL UNIQUE,\n\t\t\temail TEXT,\n\t\t\tpassword TEXT\n\t\t);\n\n\t\tCREATE TABLE IF NOT EXISTS products (\n\t\t\tid INTEGER PRIMARY KEY AUTOINCREMENT,\n\t\t\tname TEXT,\n\t\t\tdescription TEXT,\n\t\t\tprice REAL,\n\t\t\tcategory TEXT\n\t\t);\n\n\t\tCREATE TABLE IF NOT EXISTS orders (\n\t\t\tid INTEGER PRIMARY KEY AUTOINCREMENT,\n\t\t\tuser_id INTEGER,\n\t\t\tproduct_id INTEGER,\n\t\t\tquantity INTEGER,\n\t\t\ttotal_price REAL,\n\t\t\tstatus TEXT,\n\t\t\tcreated_at TEXT,\n\t\t\tuser_snapshot TEXT,\n\t\t\tproduct_snapshot TEXT\n\t\t);\n\t\t"

/-- Schema path resolution at `database.go:63-66`: `DB_SCHEMA_FILE`,
defaulting to `pkg/database/schema.sql` when unset/empty. -/
def resolveSchemaPath (env : String → String) : String :=
  if env "DB_SCHEMA_FILE" == "" then "pkg/database/schema.sql" else env "DB_SCHEMA_FILE"

/-- Schema text resolution at `database.go:68-100`: the external file if
readable, silently the embedded fallback otherwise. -/
def resolveSchema (st : Stub) (env : String → String) : String :=
  match st.fs (resolveSchemaPath env) with
  | .error _ => embeddedFallback
  | .ok text => text

/-- Model of `NewDatabase` (`database.go:50-114`): open, ping, resolve and apply
the schema DDL (fatal on execution failure), auto-seed (fatal on
failure), return the adapter.  The `host`, `user`, `password`, `port`
parameters are accepted for API compatibility and never read. -/
def NewDatabase (host user password : String) (port : Int) (env : String → String)
    (st : Stub) : Except String Database × List Eff :=
  match st.openErr with
  | some e => (.error e, [])
  | none =>
    match st.pingErr with
    | some e => (.error e, [.closeE])
    | none =>
      let schemaText := resolveSchema st env
      match st.execErr schemaText with
      | some e =>
        (.error e, [.readFileE (resolveSchemaPath env), .execSqlE schemaText, .closeE])
      | none =>
        let db : Database := ⟨some ()⟩
        match AutoSeedFromEnv st env (some db) with
        | (some e, seedEffs) =>
          (.error e,
           [.readFileE (resolveSchemaPath env), .execSqlE schemaText] ++ seedEffs ++ [.closeE])
        | (none, seedEffs) =>
          (.ok db, [.readFileE (resolveSchemaPath env), .execSqlE schemaText] ++ seedEffs)

/-- C3: auto-seeding runs iff `DB_AUTO_SEED` is exactly "1" or
case-insensitive "true"; for every other value it is a no-op returning
success with no file read and no SQL executed (zero seed rows) — also at
adapter construction — and when it runs it uses the `DB_SEED_FILE`
override or the default `pkg/database/seed.sql`. -/
theorem C3_autoseed_toggle (st : Stub) (env : String → String) (db : Option Database) :
    (seedTruthy (env "DB_AUTO_SEED") = true ↔
      env "DB_AUTO_SEED" = "1" ∨
        (⟨goLower (env "DB_AUTO_SEED").data⟩ : String) = "true") ∧
    (seedTruthy (env "DB_AUTO_SEED") = false → AutoSeedFromEnv st env db = (none, [])) ∧
    (seedTruthy (env "DB_AUTO_SEED") = true →
      AutoSeedFromEnv st env db = SeedFromFile st db (seedPath env)) ∧
    (env "DB_SEED_FILE" = "" → seedPath env = "pkg/database/seed.sql") ∧
    (env "DB_SEED_FILE" ≠ "" → seedPath env = env "DB_SEED_FILE") ∧
    (st.openErr = none → st.pingErr = none →
      st.execErr (resolveSchema st env) = none →
      seedTruthy (env "DB_AUTO_SEED") = false →
      (NewDatabase "" "" "" 0 env st).2 =
        [Eff.readFileE (resolveSchemaPath env), Eff.execSqlE (resolveSchema st env)]) := by
  refine ⟨?_, ?_, ?_, ?_, ?_, ?_⟩
  · unfold seedTruthy
    rw [Bool.or_eq_true, beq_iff_eq, beq_iff_eq]
  · intro h
    unfold AutoSeedFromEnv
    rw [h]
    rfl
  · intro h
    unfold AutoSeedFromEnv
    rw [h]
    rfl
  · intro h
    unfold seedPath
    rw [h]
    rfl
  · intro h
    unfold seedPath
    rw [show (env "DB_SEED_FILE" == "") = false from beq_eq_false_iff_ne.mpr h]
    rfl
  · intro hopen hping hexec hfalse
    have hseed : AutoSeedFromEnv st env (some ⟨some ()⟩) = (none, []) := by
      unfold AutoSeedFromEnv
      rw [hfalse]
      rfl
    unfold NewDatabase
    rw [hopen, hping]
    simp only []
    rw [hexec, hseed]
    rfl

/-- An environment with `DB_AUTO_SEED=True` and nothing else set. -/
def envTrue : String → String := fun k => if k == "DB_AUTO_SEED" then "True" else ""

/-- An environment with `DB_AUTO_SEED=garbage` and nothing else set. -/
def envGarbage : String → String := fun k => if k == "DB_AUTO_SEED" then "garbage" else ""

/-- Closed witness for `C3_autoseed_toggle`: `DB_AUTO_SEED=True` runs the
seed loader at the default path; `garbage` is a no-op success; the truthy
set is exactly "1" and case variants of "true". -/
theorem C3_autoseed_toggle_witness :
    AutoSeedFromEnv stubEx envTrue (some ⟨some ()⟩) =
      SeedFromFile stubEx (some ⟨some ()⟩) "pkg/database/seed.sql" ∧
    AutoSeedFromEnv stubEx envGarbage (some ⟨some ()⟩) = (none, []) ∧
    seedTruthy "1" = true ∧ seedTruthy "true" = true ∧ seedTruthy "TRUE" = true ∧
    seedTruthy "True" = true ∧ seedTruthy "" = false ∧ seedTruthy "0" = false ∧
    seedTruthy "false" = false ∧ seedTruthy "garbage" = false := by
  refine ⟨?_, ?_, by decide, by decide, by decide, by decide, by decide, by decide,
    by decide, by decide⟩
  · have h := (C3_autoseed_toggle stubEx envTrue (some ⟨some ()⟩)).2.2.1 (by decide)
    rw [h]
    rfl
  · exact (C3_autoseed_toggle stubEx envGarbage (some ⟨some ()⟩)).2.1 (by decide)

/-- C4: in the constructor, a schema-file read failure is non-fatal (the
embedded literal is substituted and, when the rest succeeds, an adapter is
returned, the DDL executed being the fallback literal); a DDL execution
failure is fatal; with seeding enabled, a seed-file read failure or seed
execution failure is fatal. -/
theorem C4_error_policy (host user password : String) (port : Int)
    (env : String → String) (st : Stub)
    (hopen : st.openErr = none) (hping : st.pingErr = none) :
    (∀ e, st.fs (resolveSchemaPath env) = .error e →
      resolveSchema st env = embeddedFallback ∧
      (st.execErr embeddedFallback = none →
        (AutoSeedFromEnv st env (some ⟨some ()⟩)).1 = none →
        (NewDatabase host user password port env st).1 = .ok ⟨some ()⟩ ∧
        Eff.execSqlE embeddedFallback ∈ (NewDatabase host user password port env st).2)) ∧
    (∀ e, st.execErr (resolveSchema st env) = some e →
      (NewDatabase host user password port env st).1 = .error e) ∧
    (∀ e, st.execErr (resolveSchema st env) = none →
      seedTruthy (env "DB_AUTO_SEED") = true →
      st.fs (seedPath env) = .error e →
      (NewDatabase host user password port env st).1 = .error e) ∧
    (∀ sqlText e, st.execErr (resolveSchema st env) = none →
      seedTruthy (env "DB_AUTO_SEED") = true →
      st.fs (seedPath env) = .ok sqlText → st.execErr sqlText = some e →
      (NewDatabase host user password port env st).1 = .error e) := by
  refine ⟨?_, ?_, ?_, ?_⟩
  · intro e hfs
    have hres : resolveSchema st env = embeddedFallback := by
      unfold resolveSchema
      rw [hfs]
    refine ⟨hres, ?_⟩
    intro hexec hseed
    obtain ⟨seedEffs, hseedeq⟩ : ∃ effs, AutoSeedFromEnv st env (some ⟨some ()⟩) = (none, effs) := by
      cases hae : AutoSeedFromEnv st env (some ⟨some ()⟩) with
      | mk fst snd =>
        rw [hae] at hseed
        cases fst with
        | none => exact ⟨snd, rfl⟩
        | some e' => exact absurd hseed (by simp)
    constructor
    · unfold NewDatabase
      rw [hopen, hping]
      simp only []
      rw [hres, hexec, hseedeq]
    · unfold NewDatabase
      rw [hopen, hping]
      simp only []
      rw [hres, hexec, hseedeq]
      simp
  · intro e hexec
    unfold NewDatabase
    rw [hopen, hping]
    simp only []
    rw [hexec]
  · intro e hexec htruthy hfs
    have hseed : AutoSeedFromEnv st env (some ⟨some ()⟩) =
        (some e, [.readFileE (seedPath env)]) := by
      unfold AutoSeedFromEnv
      rw [htruthy]
      show SeedFromFile st (some ⟨some ()⟩) (seedPath env) = _
      unfold SeedFromFile
      rw [hfs]
    unfold NewDatabase
    rw [hopen, hping]
    simp only []
    rw [hexec, hseed]
  · intro sqlText e hexec htruthy hfs hseedexec
    have hseed : AutoSeedFromEnv st env (some ⟨some ()⟩) =
        (some e, [.readFileE (seedPath env), .execSqlE sqlText]) := by
      unfold AutoSeedFromEnv
      rw [htruthy]
      show SeedFromFile st (some ⟨some ()⟩) (seedPath env) = _
      unfold SeedFromFile
      rw [hfs]
      show (st.execErr sqlText, [Eff.readFileE (seedPath env), Eff.execSqlE sqlText]) = _
      rw [hseedexec]
    unfold NewDatabase
    rw [hopen, hping]
    simp only []
    rw [hexec, hseed]

/-- Environment with only `DB_AUTO_SEED=1` set. -/
def envSeedOn : String → String := fun k => if k == "DB_AUTO_SEED" then "1" else ""

/-- Filesystem where the seed file is missing but schema files read. -/
def fsSeedMissing (p : String) : Except String String :=
  if p == "pkg/database/seed.sql" then .error "open: no such file"
  else .ok "CREATE TABLE IF NOT EXISTS t (x)"

/-- Filesystem where every file reads, the seed file as an INSERT batch. -/
def fsSeedBad (p : String) : Except String String :=
  if p == "pkg/database/seed.sql" then .ok "INSERT INTO users VALUES (1)"
  else .ok "CREATE TABLE IF NOT EXISTS t (x)"

/-- An `Exec` behavior that rejects exactly the INSERT batch above. -/
def execRejectInsert (s : String) : Option String :=
  if s == "INSERT INTO users VALUES (1)" then some "UNIQUE constraint failed" else none

/-- Stub whose every `Exec` fails. -/
def stubBadDdl : Stub :=
  { stubEx with fs := fun _ => .ok "NOT SQL", execErr := fun _ => some "SQL logic error" }

/-- Stub where the schema file reads fine but the seed file is missing. -/
def stubSeedMissing : Stub := { stubEx with fs := fsSeedMissing }

/-- Stub where the seed file reads fine but its batch fails to execute. -/
def stubSeedBad : Stub := { stubEx with fs := fsSeedBad, execErr := execRejectInsert }

/-- Closed witness for `C4_error_policy`: all four branches at concrete
stubs — fallback construction succeeds; DDL failure, missing seed file,
and failing seed batch are each fatal. -/
theorem C4_error_policy_witness :
    ((NewDatabase "" "" "" 0 (fun _ => "") stubEx).1 = .ok ⟨some ()⟩ ∧
      Eff.execSqlE embeddedFallback ∈ (NewDatabase "" "" "" 0 (fun _ => "") stubEx).2) ∧
    (NewDatabase "" "" "" 0 (fun _ => "") stubBadDdl).1 = .error "SQL logic error" ∧
    (NewDatabase "" "" "" 0 envSeedOn stubSeedMissing).1 = .error "open: no such file" ∧
    (NewDatabase "" "" "" 0 envSeedOn stubSeedBad).1 = .error "UNIQUE constraint failed" :=
  ⟨((C4_error_policy "" "" "" 0 (fun _ => "") stubEx rfl rfl).1 "open: no such file"
      rfl).2 rfl rfl,
   (C4_error_policy "" "" "" 0 (fun _ => "") stubBadDdl rfl rfl).2.1 "SQL logic error" rfl,
   (C4_error_policy "" "" "" 0 envSeedOn stubSeedMissing rfl rfl).2.2.1 "open: no such file"
      rfl (by decide) rfl,
   (C4_error_policy "" "" "" 0 envSeedOn stubSeedBad rfl rfl).2.2.2
      "INSERT INTO users VALUES (1)" "UNIQUE constraint failed" rfl (by decide) rfl rfl⟩

/-- C9: `Close` and `SeedFromFile` are nil-safe no-ops — on a nil
`*Database`, or one whose connection is nil, both return a nil error with
no effects (in particular `SeedFromFile` does not read the file). -/
theorem C9_nil_safety (st : Stub) (path : String) :
    Close st none = (none, []) ∧
    Close st (some ⟨none⟩) = (none, []) ∧
    SeedFromFile st none path = (none, []) ∧
    SeedFromFile st (some ⟨none⟩) path = (none, []) :=
  ⟨rfl, rfl, rfl, rfl⟩

/-- C10: the adapter constructor never reads its `host`, `user`,
`password`, `port` parameters — any two runs differing only in those
arguments produce identical results and effects (two-run
noninterference). -/
theorem C10_conn_params_ignored (host₁ user₁ pass₁ : String) (port₁ : Int)
    (host₂ user₂ pass₂ : String) (port₂ : Int)
    (env : String → String) (st : Stub) :
    NewDatabase host₁ user₁ pass₁ port₁ env st =
      NewDatabase host₂ user₂ pass₂ port₂ env st := rfl

end InsecureGo
